import Mathlib

/-!
Shallow embedding of `rasa/core/brokers/broker.py`: the event-broker factory
(`EventBroker.create`, `_create_from_endpoint_config`, `_load_from_module_string`).

External collaborators that the factory consumes but that are not part of the
given source file (`rasa/utils/endpoints.EndpointConfig`,
`rasa/utils/common.class_from_module_path`, and the four builtin adapter
modules) are modelled abstractly, following the spec, as an environment of
capabilities.  Python exceptions are modelled with `Except` over an explicit
error type; the warning log is modelled as an explicit list of emitted
warning strings.
-/

/-- Modelled from the spec: `EndpointConfig` (defined in
`rasa/utils/endpoints.py`, which is not part of the given source).  Per the
spec it carries a `type` tag (optional string) plus an opaque bag of
adapter-specific parameters that the factory passes through unchanged. -/
structure EndpointConfig where
  type : Option String := none
  params : List (String × String) := []
deriving DecidableEq, Repr

/-- Python exception values relevant to the factory: the two classes caught by
the dynamic loader (`AttributeError`, `ImportError`), the
`NotImplementedError` raised by the base class, and a catch-all for every
other exception class.  Each carries its message string. -/
inductive PyError where
  | attributeError (message : String)
  | importError (message : String)
  | notImplementedError (message : String)
  | otherError (className : String) (message : String)
deriving DecidableEq, Repr

/-- The message of an exception, as Python string-interpolation of the
exception value renders it. -/
def PyError.msg : PyError → String
  | .attributeError m => m
  | .importError m => m
  | .notImplementedError m => m
  | .otherError _ m => m

/-- Whether the exception matches the `except (AttributeError, ImportError)`
clause of `_load_from_module_string`. -/
def PyError.isAttributeOrImportError : PyError → Bool
  | .attributeError _ => true
  | .importError _ => true
  | .notImplementedError _ => false
  | .otherError _ _ => false

/-- Connector instances.  The four builtin adapters are tagged variants
carrying the config they were built from; `custom` stands for an instance of
a dynamically loaded adapter class. -/
inductive EventBroker where
  | pika (config : EndpointConfig)
  | sql (config : EndpointConfig)
  | file (config : EndpointConfig)
  | kafka (config : EndpointConfig)
  | custom (className : String) (config : EndpointConfig)
deriving DecidableEq, Repr

/-- Recogniser for the message-queue (pika) variant. -/
def EventBroker.isPika : EventBroker → Bool
  | .pika _ => true
  | _ => false

/-- Modelled from the spec: a Python class value as returned by dynamic
resolution.  Its `from_endpoint_config` attribute is optional: a resolved
class may lack the construction capability (the contract-mismatch failure of
spec section 4.3), in which case the attribute access raises
`AttributeError`.  When present, the constructor may itself return a broker
or raise. -/
structure PyClass where
  name : String
  fromEndpointConfig : Option (EndpointConfig → Except PyError EventBroker)

/-- Modelled from the spec: the external capabilities the factory consumes
(spec section 6) — the four builtin adapter constructors
(`PikaEventBroker.from_endpoint_config` and friends, whose modules are not
part of the given source) and the dynamic resolution capability
`rasa.utils.common.class_from_module_path` (also not part of the given
source), which resolves a fully-qualified identifier to a class value or
raises an import/attribute-style (or other) error. -/
structure Env where
  pikaFromEndpointConfig : EndpointConfig → Except PyError EventBroker
  sqlFromEndpointConfig : EndpointConfig → Except PyError EventBroker
  fileFromEndpointConfig : EndpointConfig → Except PyError EventBroker
  kafkaFromEndpointConfig : EndpointConfig → Except PyError EventBroker
  classFromModulePath : Option String → Except PyError PyClass

/-- Python `str.lower()` on the character sequence (ASCII case folding, which
coincides with Python on the ASCII tags the registry uses).  Defined by a
plain list map so that it reduces during proof checking. -/
def strLower (s : String) : String := ⟨s.data.map Char.toLower⟩

/-- Python string interpolation of an `Optional[Text]` value, as used in the
warning f-string: a string renders as itself, `None` renders as "None". -/
def optTypeStr : Option String → String
  | none => "None"
  | some t => t

/-- The warning emitted by `_load_from_module_string` on a caught failure,
verbatim from the source f-string. -/
def loaderWarning (t : Option String) (e : PyError) : String :=
  "The `EventBroker` type '" ++ optTypeStr t ++ "' could not be found. " ++
    "Not using any event broker. Error: " ++ PyError.msg e

/-- Python attribute access `cls.from_endpoint_config` followed by the call
`(broker_config)`: a missing attribute raises `AttributeError`; otherwise the
resolved constructor runs on the config. -/
def resolveAndConstruct (r : Except PyError PyClass) (broker_config : EndpointConfig) :
    Except PyError EventBroker :=
  match r with
  | .error e => .error e
  | .ok cls =>
    match cls.fromEndpointConfig with
    | none =>
      .error (.attributeError
        ("type object '" ++ cls.name ++ "' has no attribute 'from_endpoint_config'"))
    | some f => f broker_config

/-- The body of the `try:` block of `_load_from_module_string`: resolve
`broker_config.type` via `class_from_module_path`, then call
`from_endpoint_config` on the resolved class. -/
def tryBody (env : Env) (broker_config : EndpointConfig) : Except PyError EventBroker :=
  resolveAndConstruct (env.classFromModulePath broker_config.type) broker_config

/-- Embedding of `_load_from_module_string`: run the try-body; on an
`AttributeError` or `ImportError` log the warning and return `None`; on any
other exception let it propagate; on success return the constructed broker.
The second component is the list of warnings logged by the call. -/
def _load_from_module_string (env : Env) (broker_config : EndpointConfig) :
    Except PyError (Option EventBroker) × List String :=
  match tryBody env broker_config with
  | .ok broker => (.ok (some broker), [])
  | .error e =>
    if e.isAttributeOrImportError then
      (.ok none, [loaderWarning broker_config.type e])
    else
      (.error e, [])

/-- Calling a builtin adapter constructor from the factory: its result is
returned as-is, its exceptions propagate, nothing is logged here. -/
def callBuiltin (ctor : EndpointConfig → Except PyError EventBroker)
    (cfg : EndpointConfig) : Except PyError (Option EventBroker) × List String :=
  match ctor cfg with
  | .ok broker => (.ok (some broker), [])
  | .error e => (.error e, [])

/-- Embedding of `_create_from_endpoint_config`: `None` yields `None`;
otherwise dispatch on the lowercased `type` tag over the builtin registry
(`endpoint_config.type is None or endpoint_config.type.lower() == "pika"`,
then `"sql"`, `"file"`, `"kafka"`), falling through to
`_load_from_module_string` for any other tag. -/
def _create_from_endpoint_config (env : Env) (endpoint_config : Option EndpointConfig) :
    Except PyError (Option EventBroker) × List String :=
  match endpoint_config with
  | none => (.ok none, [])
  | some cfg =>
    if cfg.type = none ∨ cfg.type.map strLower = some "pika" then
      callBuiltin env.pikaFromEndpointConfig cfg
    else if cfg.type.map strLower = some "sql" then
      callBuiltin env.sqlFromEndpointConfig cfg
    else if cfg.type.map strLower = some "file" then
      callBuiltin env.fileFromEndpointConfig cfg
    else if cfg.type.map strLower = some "kafka" then
      callBuiltin env.kafkaFromEndpointConfig cfg
    else
      _load_from_module_string env cfg

/-- The argument of `EventBroker.create`:
`Union["EventBroker", EndpointConfig, None]`. -/
inductive CreateArg where
  | brokerArg (b : EventBroker)
  | configArg (c : EndpointConfig)
  | noneArg
deriving DecidableEq, Repr

/-- Embedding of `EventBroker.create`: an `EventBroker` instance is returned
unchanged; anything else goes to `_create_from_endpoint_config`. -/
def EventBroker.create (env : Env) : CreateArg → Except PyError (Option EventBroker) × List String
  | .brokerArg b => (.ok (some b), [])
  | .configArg c => _create_from_endpoint_config env (some c)
  | .noneArg => _create_from_endpoint_config env none

/-- Embedding of the base-class `EventBroker.from_endpoint_config`: always
raises `NotImplementedError` with the message from the source. -/
def EventBroker.from_endpoint_config (_broker_config : EndpointConfig) :
    Except PyError EventBroker :=
  .error (.notImplementedError
    "Event broker must implement the `from_endpoint_config` method.")

/-- Embedding of the base-class `EventBroker.publish`: always raises
`NotImplementedError` with the message from the source, for any instance and
any event record. -/
def EventBroker.publish (_self : EventBroker) (_event : List (String × String)) :
    Except PyError Unit :=
  .error (.notImplementedError "Event broker must implement the `publish` method.")

/-- The builtin registry tags, lowercased. -/
def builtinTags : List String := ["pika", "sql", "file", "kafka"]

/-- A concrete well-behaved environment: every builtin constructor succeeds
with its tagged variant, and dynamic resolution always fails with
`ImportError` (no external module is available). -/
def envStd : Env where
  pikaFromEndpointConfig := fun c => .ok (.pika c)
  sqlFromEndpointConfig := fun c => .ok (.sql c)
  fileFromEndpointConfig := fun c => .ok (.file c)
  kafkaFromEndpointConfig := fun c => .ok (.kafka c)
  classFromModulePath := fun t =>
    .error (.importError ("No module named '" ++ optTypeStr t ++ "'"))

/-- A config with the given type tag and no parameters. -/
def cfgOf (t : Option String) : EndpointConfig := { type := t }

theorem create_configArg (env : Env) (cfg : EndpointConfig) :
    EventBroker.create env (.configArg cfg) = _create_from_endpoint_config env (some cfg) :=
  rfl

theorem dispatch_type_none (env : Env) (cfg : EndpointConfig) (h : cfg.type = none) :
    _create_from_endpoint_config env (some cfg) = callBuiltin env.pikaFromEndpointConfig cfg := by
  simp [_create_from_endpoint_config, h]

theorem dispatch_pika (env : Env) (cfg : EndpointConfig) (t : String)
    (h : cfg.type = some t) (ht : strLower t = "pika") :
    _create_from_endpoint_config env (some cfg) = callBuiltin env.pikaFromEndpointConfig cfg := by
  simp [_create_from_endpoint_config, h, ht]

theorem dispatch_sql (env : Env) (cfg : EndpointConfig) (t : String)
    (h : cfg.type = some t) (ht : strLower t = "sql") :
    _create_from_endpoint_config env (some cfg) = callBuiltin env.sqlFromEndpointConfig cfg := by
  simp [_create_from_endpoint_config, h, ht]

theorem dispatch_file (env : Env) (cfg : EndpointConfig) (t : String)
    (h : cfg.type = some t) (ht : strLower t = "file") :
    _create_from_endpoint_config env (some cfg) = callBuiltin env.fileFromEndpointConfig cfg := by
  simp [_create_from_endpoint_config, h, ht]

theorem dispatch_kafka (env : Env) (cfg : EndpointConfig) (t : String)
    (h : cfg.type = some t) (ht : strLower t = "kafka") :
    _create_from_endpoint_config env (some cfg) = callBuiltin env.kafkaFromEndpointConfig cfg := by
  simp [_create_from_endpoint_config, h, ht]

theorem dispatch_dynamic (env : Env) (cfg : EndpointConfig) (t : String)
    (h : cfg.type = some t) (hn : strLower t ∉ builtinTags) :
    _create_from_endpoint_config env (some cfg) = _load_from_module_string env cfg := by
  simp [builtinTags] at hn
  obtain ⟨h1, h2, h3, h4⟩ := hn
  simp [_create_from_endpoint_config, h, h1, h2, h3, h4]

theorem loader_swallow (env : Env) (cfg : EndpointConfig) (e : PyError)
    (he : tryBody env cfg = .error e) (hc : e.isAttributeOrImportError = true) :
    _load_from_module_string env cfg = (.ok none, [loaderWarning cfg.type e]) := by
  simp [_load_from_module_string, he, hc]

theorem loader_raise (env : Env) (cfg : EndpointConfig) (e : PyError)
    (he : tryBody env cfg = .error e) (hc : e.isAttributeOrImportError = false) :
    _load_from_module_string env cfg = (.error e, []) := by
  simp [_load_from_module_string, he, hc]

theorem loader_ok (env : Env) (cfg : EndpointConfig) (b : EventBroker)
    (hb : tryBody env cfg = .ok b) :
    _load_from_module_string env cfg = (.ok (some b), []) := by
  simp [_load_from_module_string, hb]

theorem loaderWarning_contains_type (t : String) (e : PyError) :
    t.data <:+: (loaderWarning (some t) e).data :=
  ⟨("The `EventBroker` type '" : String).data,
   (("' could not be found. " : String) ++ "Not using any event broker. Error: " ++
     PyError.msg e).data,
   by simp [loaderWarning, optTypeStr, String.data_append]⟩

theorem loaderWarning_contains_msg (ot : Option String) (e : PyError) :
    (PyError.msg e).data <:+: (loaderWarning ot e).data :=
  ⟨(("The `EventBroker` type '" : String) ++ optTypeStr ot ++ "' could not be found. " ++
     "Not using any event broker. Error: ").data,
   [], by simp [loaderWarning, String.data_append]⟩

/-- C1: for every config whose type string is not a builtin tag and either
cannot be resolved to a loadable type (resolution raises AttributeError or
ImportError) or resolves to a type lacking the `from_endpoint_config`
capability, `create` returns absence, logs exactly one warning containing the
failing identifier and the underlying cause, and lets no exception propagate
past the factory boundary. -/
theorem C1_dynamic_failure_swallowed_and_logged
    (env : Env) (cfg : EndpointConfig) (t : String)
    (h1 : cfg.type = some t)
    (h2 : strLower t ∉ builtinTags)
    (h3 : (∃ e, env.classFromModulePath (some t) = .error e ∧
             e.isAttributeOrImportError = true)
        ∨ (∃ cls, env.classFromModulePath (some t) = .ok cls ∧
             cls.fromEndpointConfig = none)) :
    ∃ e, e.isAttributeOrImportError = true ∧
      EventBroker.create env (.configArg cfg) = (.ok none, [loaderWarning (some t) e]) ∧
      t.data <:+: (loaderWarning (some t) e).data ∧
      (PyError.msg e).data <:+: (loaderWarning (some t) e).data := by
  have hd : EventBroker.create env (.configArg cfg) = _load_from_module_string env cfg := by
    rw [create_configArg, dispatch_dynamic env cfg t h1 h2]
  rcases h3 with ⟨e, he, hc⟩ | ⟨cls, hcls, hnone⟩
  · refine ⟨e, hc, ?_, loaderWarning_contains_type t e, loaderWarning_contains_msg _ e⟩
    have ht : tryBody env cfg = .error e := by
      simp [tryBody, h1, he, resolveAndConstruct]
    rw [hd, loader_swallow env cfg e ht hc, h1]
  · refine ⟨.attributeError
      ("type object '" ++ cls.name ++ "' has no attribute 'from_endpoint_config'"),
      rfl, ?_, loaderWarning_contains_type t _, loaderWarning_contains_msg _ _⟩
    have ht : tryBody env cfg = .error (.attributeError
        ("type object '" ++ cls.name ++ "' has no attribute 'from_endpoint_config'")) := by
      simp [tryBody, h1, hcls, resolveAndConstruct, hnone]
    rw [hd, loader_swallow env cfg _ ht rfl, h1]

/-- C1 witness: with the standard environment, the unresolvable identifier
My.Custom.Broker yields absence plus one warning containing the identifier
and the ImportError message. -/
theorem C1_witness :
    ∃ e, e.isAttributeOrImportError = true ∧
      EventBroker.create envStd (.configArg (cfgOf (some "My.Custom.Broker"))) =
        (.ok none, [loaderWarning (some "My.Custom.Broker") e]) ∧
      ("My.Custom.Broker" : String).data <:+:
        (loaderWarning (some "My.Custom.Broker") e).data ∧
      (PyError.msg e).data <:+: (loaderWarning (some "My.Custom.Broker") e).data :=
  C1_dynamic_failure_swallowed_and_logged envStd (cfgOf (some "My.Custom.Broker"))
    "My.Custom.Broker" rfl (by decide)
    (Or.inl ⟨.importError ("No module named '" ++ "My.Custom.Broker" ++ "'"), rfl, rfl⟩)

/-- A resolvable class whose own constructor raises `AttributeError` (for
example because the adapter reads a missing attribute off the config). -/
def clsCtorAttrError : PyClass where
  name := "QueueBroker"
  fromEndpointConfig :=
    some (fun _ => .error (.attributeError "'EndpointConfig' object has no attribute 'queue'"))

/-- An environment in which `my_module.QueueBroker` resolves successfully to
`clsCtorAttrError`; every other identifier fails to import. -/
def envCtorAttrError : Env :=
  { envStd with
    classFromModulePath := fun t =>
      if t = some "my_module.QueueBroker" then .ok clsCtorAttrError
      else .error (.importError "No module") }

/-- A resolvable class whose constructor raises an adapter-specific error of
a class other than AttributeError and ImportError. -/
def clsCtorValueError : PyClass where
  name := "BadBroker"
  fromEndpointConfig :=
    some (fun _ => .error (.otherError "ValueError" "invalid port"))

/-- An environment in which `pkg.BadBroker` resolves successfully to
`clsCtorValueError`; every other identifier fails to import. -/
def envCtorValueError : Env :=
  { envStd with
    classFromModulePath := fun t =>
      if t = some "pkg.BadBroker" then .ok clsCtorValueError
      else .error (.importError "No module") }

/-- C2 counterexample: the identifier `my_module.QueueBroker` resolves
successfully and the resolved constructor itself raises an `AttributeError`,
yet `create` swallows it — it returns absence with the could-not-be-found
warning instead of letting the construction error propagate. -/
theorem C2_counterexample_ctor_error_swallowed :
    envCtorAttrError.classFromModulePath (some "my_module.QueueBroker") =
      .ok clsCtorAttrError ∧
    tryBody envCtorAttrError (cfgOf (some "my_module.QueueBroker")) =
      .error (.attributeError "'EndpointConfig' object has no attribute 'queue'") ∧
    EventBroker.create envCtorAttrError (.configArg (cfgOf (some "my_module.QueueBroker"))) =
      (.ok none, [loaderWarning (some "my_module.QueueBroker")
        (.attributeError "'EndpointConfig' object has no attribute 'queue'")]) ∧
    (EventBroker.create envCtorAttrError
        (.configArg (cfgOf (some "my_module.QueueBroker")))).1 ≠
      .error (.attributeError "'EndpointConfig' object has no attribute 'queue'") :=
  ⟨rfl, rfl, rfl, fun h => Except.noConfusion h⟩

/-- C2 (amended): for a config reaching the dynamic loader whose identifier
resolves successfully, an error raised by the resolved adapter's own
`from_endpoint_config` propagates to the caller only when it is not an
`AttributeError` or `ImportError`; those two classes are swallowed by the
loader's except clause, because the try block also covers the construction
call. -/
theorem C2_amended_ctor_error_propagation
    (env : Env) (cfg : EndpointConfig) (t : String) (cls : PyClass)
    (f : EndpointConfig → Except PyError EventBroker) (e : PyError)
    (h1 : cfg.type = some t) (h2 : strLower t ∉ builtinTags)
    (h3 : env.classFromModulePath (some t) = .ok cls)
    (h4 : cls.fromEndpointConfig = some f)
    (h5 : f cfg = .error e) :
    (e.isAttributeOrImportError = false →
      EventBroker.create env (.configArg cfg) = (.error e, [])) ∧
    (e.isAttributeOrImportError = true →
      EventBroker.create env (.configArg cfg) =
        (.ok none, [loaderWarning (some t) e])) := by
  have hd : EventBroker.create env (.configArg cfg) = _load_from_module_string env cfg := by
    rw [create_configArg, dispatch_dynamic env cfg t h1 h2]
  have ht : tryBody env cfg = .error e := by
    simp [tryBody, h1, h3, resolveAndConstruct, h4, h5]
  constructor
  · intro hc
    rw [hd, loader_raise env cfg e ht hc]
  · intro hc
    rw [hd, loader_swallow env cfg e ht hc, h1]

/-- C2 witness: a ValueError raised by the resolved constructor of
`pkg.BadBroker` propagates out of `create` uncaught. -/
theorem C2_witness :
    EventBroker.create envCtorValueError (.configArg (cfgOf (some "pkg.BadBroker"))) =
      (.error (.otherError "ValueError" "invalid port"), []) :=
  (C2_amended_ctor_error_propagation envCtorValueError (cfgOf (some "pkg.BadBroker"))
    "pkg.BadBroker" clsCtorValueError
    (fun _ => .error (.otherError "ValueError" "invalid port"))
    (.otherError "ValueError" "invalid port")
    rfl (by decide) rfl rfl rfl).1 rfl

/-- C3: for every config whose type is absent or case-insensitively equal to
pika, `create` returns the result of the pika adapter's
`from_endpoint_config`; under the spec's adapter-typing assumption (the pika
constructor yields message-queue connectors), any broker so returned is a
message-queue connector. -/
theorem C3_pika_default_dispatch (env : Env) (cfg : EndpointConfig)
    (hp : ∀ c b, env.pikaFromEndpointConfig c = .ok b → b.isPika = true)
    (h : cfg.type = none ∨ ∃ t, cfg.type = some t ∧ strLower t = "pika") :
    EventBroker.create env (.configArg cfg) = callBuiltin env.pikaFromEndpointConfig cfg ∧
    ∀ b, (EventBroker.create env (.configArg cfg)).1 = .ok (some b) → b.isPika = true := by
  have hd : EventBroker.create env (.configArg cfg) =
      callBuiltin env.pikaFromEndpointConfig cfg := by
    rcases h with h | ⟨t, h, ht⟩
    · rw [create_configArg, dispatch_type_none env cfg h]
    · rw [create_configArg, dispatch_pika env cfg t h ht]
  refine ⟨hd, fun b hb => ?_⟩
  rw [hd] at hb
  unfold callBuiltin at hb
  rcases hc : env.pikaFromEndpointConfig cfg with e | b2
  · rw [hc] at hb
    exact Except.noConfusion hb
  · rw [hc] at hb
    simp only [Except.ok.injEq, Option.some.injEq] at hb
    exact hb ▸ hp cfg b2 hc

/-- C3 witness: with the standard environment and the tag Pika, `create`
returns the pika adapter's construction. -/
theorem C3_witness :
    EventBroker.create envStd (.configArg (cfgOf (some "Pika"))) =
      callBuiltin envStd.pikaFromEndpointConfig (cfgOf (some "Pika")) :=
  (C3_pika_default_dispatch envStd (cfgOf (some "Pika"))
    (fun c b h => by injection h with h2; subst h2; rfl)
    (Or.inr ⟨"Pika", rfl, by decide⟩)).1

/-- C4: for every config whose type is any letter casing of sql, file or
kafka, `create` dispatches to the matching builtin adapter's constructor and
returns its result. -/
theorem C4_builtin_dispatch (env : Env) (cfg : EndpointConfig) (t : String)
    (h : cfg.type = some t) :
    (strLower t = "sql" →
      EventBroker.create env (.configArg cfg) = callBuiltin env.sqlFromEndpointConfig cfg) ∧
    (strLower t = "file" →
      EventBroker.create env (.configArg cfg) = callBuiltin env.fileFromEndpointConfig cfg) ∧
    (strLower t = "kafka" →
      EventBroker.create env (.configArg cfg) = callBuiltin env.kafkaFromEndpointConfig cfg) :=
  ⟨fun ht => by rw [create_configArg, dispatch_sql env cfg t h ht],
   fun ht => by rw [create_configArg, dispatch_file env cfg t h ht],
   fun ht => by rw [create_configArg, dispatch_kafka env cfg t h ht]⟩

/-- C4 witness: mixed-casing tags SQL, File and KaFkA each dispatch to their
builtin adapter in the standard environment. -/
theorem C4_witness :
    (EventBroker.create envStd (.configArg (cfgOf (some "SQL"))) =
      callBuiltin envStd.sqlFromEndpointConfig (cfgOf (some "SQL"))) ∧
    (EventBroker.create envStd (.configArg (cfgOf (some "File"))) =
      callBuiltin envStd.fileFromEndpointConfig (cfgOf (some "File"))) ∧
    (EventBroker.create envStd (.configArg (cfgOf (some "KaFkA"))) =
      callBuiltin envStd.kafkaFromEndpointConfig (cfgOf (some "KaFkA"))) :=
  ⟨(C4_builtin_dispatch envStd (cfgOf (some "SQL")) "SQL" rfl).1 (by decide),
   (C4_builtin_dispatch envStd (cfgOf (some "File")) "File" rfl).2.1 (by decide),
   (C4_builtin_dispatch envStd (cfgOf (some "KaFkA")) "KaFkA" rfl).2.2 (by decide)⟩

/-- C5: an already-constructed broker passed to `create` is returned as the
identical instance with nothing logged and no error; consequently `create` is
idempotent on its own outputs — feeding back any broker some call of `create`
returned yields that same broker. -/
theorem C5_passthrough_idempotent (env : Env) (b : EventBroker) :
    EventBroker.create env (.brokerArg b) = (.ok (some b), []) ∧
    ∀ (env2 : Env) (x : CreateArg) (w : List String),
      EventBroker.create env2 x = (.ok (some b), w) →
      EventBroker.create env2 (.brokerArg b) = (.ok (some b), []) :=
  ⟨rfl, fun _ _ _ _ => rfl⟩

/-- C5 witness: a concrete pika broker passes through unchanged, applied via
the idempotence clause to the output of a previous `create` call. -/
theorem C5_witness :
    EventBroker.create envStd (.brokerArg (.pika (cfgOf none))) =
      (.ok (some (.pika (cfgOf none))), []) :=
  (C5_passthrough_idempotent envStd (.pika (cfgOf none))).2
    envStd (.configArg (cfgOf none)) [] rfl

/-- C6 counterexample: with the standard environment, an empty-string type
tag does not default to the message-queue adapter — it falls through to the
dynamic loader and yields absence with a warning, whereas an absent tag
yields the pika broker, so the two are distinguishable. -/
theorem C6_counterexample_empty_tag_not_default :
    EventBroker.create envStd (.configArg (cfgOf (some ""))) =
      _load_from_module_string envStd (cfgOf (some "")) ∧
    (EventBroker.create envStd (.configArg (cfgOf (some "")))).1 = .ok none ∧
    (EventBroker.create envStd (.configArg (cfgOf none))).1 =
      .ok (some (.pika (cfgOf none))) ∧
    (EventBroker.create envStd (.configArg (cfgOf (some "")))).1 ≠
      (EventBroker.create envStd (.configArg (cfgOf none))).1 :=
  ⟨rfl, rfl, rfl, fun h => by
    rw [show (EventBroker.create envStd (.configArg (cfgOf (some "")))).1 =
          (Except.ok none : Except PyError (Option EventBroker)) from rfl,
        show (EventBroker.create envStd (.configArg (cfgOf none))).1 =
          (Except.ok (some (.pika (cfgOf none))) :
            Except PyError (Option EventBroker)) from rfl] at h
    simp at h⟩

/-- C6 (amended): only an absent type tag defaults to the message-queue
adapter; an empty-string tag matches no builtin and is handed to the dynamic
loader instead. -/
theorem C6_amended_default_only_for_absent (env : Env) (cfg : EndpointConfig) :
    (cfg.type = none →
      EventBroker.create env (.configArg cfg) = callBuiltin env.pikaFromEndpointConfig cfg) ∧
    (cfg.type = some "" →
      EventBroker.create env (.configArg cfg) = _load_from_module_string env cfg) :=
  ⟨fun h => by rw [create_configArg, dispatch_type_none env cfg h],
   fun h => by rw [create_configArg, dispatch_dynamic env cfg "" h (by decide)]⟩

/-- C6 witness: the two branches of the amended claim at concrete configs. -/
theorem C6_witness :
    (EventBroker.create envStd (.configArg (cfgOf none)) =
      callBuiltin envStd.pikaFromEndpointConfig (cfgOf none)) ∧
    (EventBroker.create envStd (.configArg (cfgOf (some ""))) =
      _load_from_module_string envStd (cfgOf (some ""))) :=
  ⟨(C6_amended_default_only_for_absent envStd (cfgOf none)).1 rfl,
   (C6_amended_default_only_for_absent envStd (cfgOf (some ""))).2 rfl⟩

/-- C7: a present type tag matching no builtin name (under lowercasing) makes
`create` fall through to the dynamic loader rather than fail, the tag being
treated as the fully-qualified identifier: when it resolves to a class whose
constructor succeeds, `create` returns that construction. -/
theorem C7_unrecognized_falls_through_to_loader
    (env : Env) (cfg : EndpointConfig) (t : String)
    (h1 : cfg.type = some t) (h2 : strLower t ∉ builtinTags) :
    EventBroker.create env (.configArg cfg) = _load_from_module_string env cfg ∧
    ∀ cls f b, env.classFromModulePath (some t) = .ok cls →
      cls.fromEndpointConfig = some f → f cfg = .ok b →
      EventBroker.create env (.configArg cfg) = (.ok (some b), []) := by
  have hd : EventBroker.create env (.configArg cfg) = _load_from_module_string env cfg := by
    rw [create_configArg, dispatch_dynamic env cfg t h1 h2]
  refine ⟨hd, fun cls f b hcls hf hb => ?_⟩
  have ht : tryBody env cfg = .ok b := by
    simp [tryBody, h1, hcls, resolveAndConstruct, hf, hb]
  rw [hd, loader_ok env cfg b ht]

/-- A resolvable class that constructs successfully, yielding a custom
dynamically loaded broker. -/
def clsGoodBroker : PyClass where
  name := "GoodBroker"
  fromEndpointConfig := some (fun c => .ok (.custom "pkg.GoodBroker" c))

/-- An environment in which `pkg.GoodBroker` resolves to `clsGoodBroker`;
every other identifier fails to import. -/
def envDynOk : Env :=
  { envStd with
    classFromModulePath := fun t =>
      if t = some "pkg.GoodBroker" then .ok clsGoodBroker
      else .error (.importError "No module") }

/-- C7 witness: the unrecognized tag `pkg.GoodBroker` reaches the loader and
`create` returns the dynamically constructed broker. -/
theorem C7_witness :
    EventBroker.create envDynOk (.configArg (cfgOf (some "pkg.GoodBroker"))) =
      (.ok (some (.custom "pkg.GoodBroker" (cfgOf (some "pkg.GoodBroker")))), []) :=
  (C7_unrecognized_falls_through_to_loader envDynOk (cfgOf (some "pkg.GoodBroker"))
    "pkg.GoodBroker" rfl (by decide)).2
    clsGoodBroker (fun c => .ok (.custom "pkg.GoodBroker" c))
    (.custom "pkg.GoodBroker" (cfgOf (some "pkg.GoodBroker"))) rfl rfl rfl

/-- C8: for absent input, `create` returns absence, with no error and nothing
logged. -/
theorem C8_absent_input_returns_absent (env : Env) :
    EventBroker.create env CreateArg.noneArg = (.ok none, []) :=
  rfl

/-- C9: the base-class contract implementations signal not-implemented: the
base `from_endpoint_config` raises `NotImplementedError` on every config, and
the base `publish` raises `NotImplementedError` on every instance and every
event record, rather than returning a value. -/
theorem C9_base_class_not_implemented :
    (∀ cfg : EndpointConfig,
      EventBroker.from_endpoint_config cfg =
        .error (.notImplementedError
          "Event broker must implement the `from_endpoint_config` method.")) ∧
    (∀ (b : EventBroker) (ev : List (String × String)),
      EventBroker.publish b ev =
        .error (.notImplementedError "Event broker must implement the `publish` method.")) :=
  ⟨fun _ => rfl, fun _ _ => rfl⟩

/-- C10: lowercasing affects only the builtin dispatch comparison — on the
fall-through path the identifier handed to the resolution capability is the
original `type` string exactly as configured, and the failure warning embeds
that original string verbatim. -/
theorem C10_loader_receives_original_casing
    (env : Env) (cfg : EndpointConfig) (t : String)
    (h1 : cfg.type = some t) (h2 : strLower t ∉ builtinTags) :
    EventBroker.create env (.configArg cfg) = _load_from_module_string env cfg ∧
    tryBody env cfg = resolveAndConstruct (env.classFromModulePath (some t)) cfg ∧
    ∀ e, tryBody env cfg = .error e → e.isAttributeOrImportError = true →
      EventBroker.create env (.configArg cfg) = (.ok none, [loaderWarning (some t) e]) ∧
      t.data <:+: (loaderWarning (some t) e).data := by
  have hd : EventBroker.create env (.configArg cfg) = _load_from_module_string env cfg := by
    rw [create_configArg, dispatch_dynamic env cfg t h1 h2]
  refine ⟨hd, by rw [tryBody, h1], fun e he hc => ⟨?_, loaderWarning_contains_type t e⟩⟩
  rw [hd, loader_swallow env cfg e he hc, h1]

/-- C10 witness: the mixed-casing identifier `My.Custom.Broker` is resolved
and reported in its original casing. -/
theorem C10_witness :
    EventBroker.create envStd (.configArg (cfgOf (some "My.Custom.Broker"))) =
      (.ok none, [loaderWarning (some "My.Custom.Broker")
        (.importError "No module named 'My.Custom.Broker'")]) :=
  ((C10_loader_receives_original_casing envStd (cfgOf (some "My.Custom.Broker"))
    "My.Custom.Broker" rfl (by decide)).2.2
    (.importError "No module named 'My.Custom.Broker'") rfl rfl).1
